import Mathlib

/-
Verification of the 6-GHz-AFC test-harness validation and mask-reconciliation
engine (src/harness). The Python dataclasses are embedded as Lean structures;
numeric protocol values (PSD, EIRP, operating classes, channel indices) are
rationals, frequencies are integers as declared in the source dataclasses.
The float value -inf used by ExpectedPowerRange.lowerBound after
__post_init__ is modelled by an Option, with none standing for -inf.
External library primitives (datetime.fromisoformat, geopy great-circle
distance, spherical edge intersection) are abstracted as function parameters;
everything else is translated from the source.
-/

namespace AFC

/-- Frequency range from interface_common.FrequencyRange: the half-open
interval [lowFrequency, highFrequency) in MHz. -/
structure FrequencyRange where
  lowFrequency : Int
  highFrequency : Int
  deriving DecidableEq, Repr

/-- Embedding of FrequencyRange.overlaps: true iff
lowFrequency < other.highFrequency and other.lowFrequency < highFrequency. -/
def FrequencyRange.overlaps (a other : FrequencyRange) : Bool :=
  decide (a.lowFrequency < other.highFrequency) && decide (other.lowFrequency < a.highFrequency)

/-- Raw values of the closed ResponseCode enumeration (interface_common),
in declaration order: GENERAL_FAILURE, SUCCESS, VERSION_NOT_SUPPORTED,
DEVICE_DISALLOWED, MISSING_PARAM, INVALID_VALUE, UNEXPECTED_PARAM,
UNSUPPORTED_SPECTRUM, UNSUPPORTED_BASIS. Response codes are modelled by
their raw Int value: after __post_init__ both sides of every comparison
are normalised (enum member for closed-set values, plain int otherwise),
so equality of normalised codes is equality of raw values. -/
def allResponseCodes : List Int := [-1, 0, 100, 101, 102, 103, 106, 300, 301]

/-- Vendor extension (interface_common.VendorExtension); the Any-typed
payload is irrelevant to every validator and is dropped. -/
structure VendorExtension where
  extensionId : String
  deriving DecidableEq, Repr

/-- Supplemental info for specific response codes
(available_spectrum_inquiry_response.SupplementalInfo). -/
structure SupplementalInfo where
  missingParams : Option (List String)
  invalidParams : Option (List String)
  unexpectedParams : Option (List String)
  deriving DecidableEq, Repr

/-- Response field of an inquiry response
(available_spectrum_inquiry_response.Response). -/
structure Response where
  responseCode : Int
  shortDescription : Option String
  supplementalInfo : Option SupplementalInfo
  deriving DecidableEq, Repr

/-- Available frequency info of a received response
(available_spectrum_inquiry_response.AvailableFrequencyInfo). -/
structure AvailableFrequencyInfo where
  frequencyRange : FrequencyRange
  maxPsd : ℚ
  deriving DecidableEq, Repr

/-- Available channel info of a received response
(available_spectrum_inquiry_response.AvailableChannelInfo). -/
structure AvailableChannelInfo where
  globalOperatingClass : ℚ
  channelCfi : List ℚ
  maxEirp : List ℚ
  deriving DecidableEq, Repr

/-- Received response
(available_spectrum_inquiry_response.AvailableSpectrumInquiryResponse). -/
structure AvailableSpectrumInquiryResponse where
  requestId : String
  rulesetId : String
  response : Response
  availableFrequencyInfo : Option (List AvailableFrequencyInfo)
  availableChannelInfo : Option (List AvailableChannelInfo)
  availabilityExpireTime : Option String
  vendorExtensions : Option (List VendorExtension)
  deriving DecidableEq, Repr

/-- Received response message
(available_spectrum_inquiry_response.AvailableSpectrumInquiryResponseMessage). -/
structure AvailableSpectrumInquiryResponseMessage where
  version : String
  availableSpectrumInquiryResponses : List AvailableSpectrumInquiryResponse
  vendorExtensions : Option (List VendorExtension)
  deriving DecidableEq, Repr

/-- Expected power range (expected_inquiry_response.ExpectedPowerRange).
After __post_init__ an absent lowerBound is float(-inf); none models -inf. -/
structure ExpectedPowerRange where
  upperBound : ℚ
  nominalValue : Option ℚ
  lowerBound : Option ℚ
  deriving DecidableEq, Repr

/-- Embedding of ExpectedPowerRange.in_range:
lowerBound <= val <= upperBound, both ends inclusive; a lowerBound of
-inf (modelled none) is below every rational. -/
def ExpectedPowerRange.in_range (r : ExpectedPowerRange) (val : ℚ) : Bool :=
  (match r.lowerBound with
   | none => true
   | some lb => decide (lb ≤ val)) && decide (val ≤ r.upperBound)

/-- Expected frequency info entry of a mask
(expected_inquiry_response.ExpectedAvailableFrequencyInfo). -/
structure ExpectedAvailableFrequencyInfo where
  frequencyRange : FrequencyRange
  maxPsd : ExpectedPowerRange
  deriving DecidableEq, Repr

/-- Expected channel info entry of a mask
(expected_inquiry_response.ExpectedAvailableChannelInfo). -/
structure ExpectedAvailableChannelInfo where
  globalOperatingClass : ℚ
  channelCfi : List ℚ
  maxEirp : List ExpectedPowerRange
  deriving DecidableEq, Repr

/-- Expected response mask
(expected_inquiry_response.ExpectedSpectrumInquiryResponse), as it stands
after __post_init__ (disallowedResponseCodes filled in). -/
structure ExpectedSpectrumInquiryResponse where
  requestId : String
  rulesetId : String
  expectedResponseCodes : List Int
  expectedFrequencyInfo : Option (List ExpectedAvailableFrequencyInfo)
  expectedChannelInfo : Option (List ExpectedAvailableChannelInfo)
  vendorExtensions : Option (List VendorExtension)
  disallowedResponseCodes : List Int
  deriving DecidableEq, Repr

/-- Expected response message mask
(expected_inquiry_response.ExpectedSpectrumInquiryResponseMessage). -/
structure ExpectedSpectrumInquiryResponseMessage where
  version : String
  expectedSpectrumInquiryResponses : List ExpectedSpectrumInquiryResponse
  vendorExtensions : Option (List VendorExtension)
  deriving DecidableEq, Repr

/-- Severity levels of the four-level logging channel
(test_harness_logging.TestHarnessLogger). -/
inductive Severity where
  | info | warning | error | fatal
  deriving DecidableEq, Repr

/-- Structured stand-ins for the log messages emitted by
ResponseMaskRunner; each constructor corresponds to one logging call site
of response_mask_runner.py and carries the dynamic values of its message. -/
inductive LogMsg where
  | recvResponseValidationFailed
  | recvResponseValidationPassed
  | maskValidationPassed
  | requestIdMismatch (recv expd : String)
  | requestIdMatch (id : String)
  | rulesetIdMismatch (recv expd : String)
  | rulesetIdMatch (id : String)
  | responseCodeDisallowed (code : Int)
  | responseCodeUnexpected (code : Int)
  | responseCodeMatches (code : Int)
  | freqInfoNotInMask
  | maskViolated (lo hi : Int)
  | maskMatches (lo hi : Int)
  | transmissionDisallowed (lo hi : Int)
  | chanInfoNotInMask
  | noAllowedChannelsForGoc (goc : ℚ)
  | gocCfiNotPermitted (goc cfi : ℚ)
  | eirpOutOfRange (goc cfi : ℚ)
  | eirpInRange (goc cfi : ℚ)
  | vendorExtInReceived
  | vendorExtInExpected
  | recvMsgValidationFailed
  | recvMsgValidationPassed
  | maskMsgValidationPassed
  | versionMismatch (recv expd : String)
  | respCountMismatch (recv expd : Nat)
  | expectedIdCount (id : String) (n : Nat)
  | responseViolatesMask (id : String)
  | responseSatisfiesMask (id : String)
  | unexpectedRequestId (id : String)
  | vendorExtInReceivedMsg
  | vendorExtInExpectedMsg
  deriving DecidableEq, Repr

/-- Log entry: a severity paired with a structured message. -/
abbrev LogEntry := Severity × LogMsg

/-- Whether an Except value is the error case (an exception escaping the
modelled function in the source). -/
def isErr {ε α : Type} : Except ε α → Bool
  | .error _ => true
  | .ok _ => false

theorem isErr_map {ε α β : Type} (f : α → β) (x : Except ε α) :
    isErr (x.map f) = isErr x := by
  cases x <;> rfl

/-- Outcome of one iteration of the interval-sweep loop of
run_test_response (response_mask_runner.py lines 119-146): the sub-range
[lo, hi) was either checked against a covering expected entry (with the
in_range verdict) or flagged as disallowed transmission. -/
inductive SweepRecord where
  | checked (lo hi : Int) (psdOk : Bool)
  | disallowed (lo hi : Int)
  deriving DecidableEq, Repr

/-- Left end of the sub-range a sweep record accounts for. -/
def SweepRecord.lo : SweepRecord → Int
  | .checked l _ _ => l
  | .disallowed l _ => l

/-- Right end of the sub-range a sweep record accounts for. -/
def SweepRecord.hi : SweepRecord → Int
  | .checked _ h _ => h
  | .disallowed _ h => h

/-- One pass of the inner for-loop over mask entries
(response_mask_runner.py lines 122-141) at cursor position curr: entries
whose highFrequency is at or below the cursor are skipped (they only feed
the unused low_disallow_freq marker), entries strictly above the cursor
shrink the disallowed-high marker, and the first entry covering the cursor
is returned as the for-loop breaks on it. -/
def scanMask (curr hiDis : Int) :
    List ExpectedAvailableFrequencyInfo → Option ExpectedAvailableFrequencyInfo × Int
  | [] => (none, hiDis)
  | m :: rest =>
    if m.frequencyRange.highFrequency ≤ curr then
      scanMask curr hiDis rest
    else if curr < m.frequencyRange.lowFrequency then
      scanMask curr (min hiDis m.frequencyRange.lowFrequency) rest
    else
      (some m, hiDis)

/-- Endpoints the sweep cursor can land on: the received highFrequency and
every mask entry endpoint. -/
def freqEndpoints (mask : List ExpectedAvailableFrequencyInfo) (hi : Int) : List Int :=
  hi :: (mask.map fun m => m.frequencyRange.lowFrequency)
     ++ (mask.map fun m => m.frequencyRange.highFrequency)

/-- Termination measure of the sweep loop: how many candidate endpoints
remain strictly above the cursor. -/
def sweepMeasure (mask : List ExpectedAvailableFrequencyInfo) (hi curr : Int) : Nat :=
  ((freqEndpoints mask hi).filter fun e => decide (curr < e)).length

theorem scanMask_some (curr hiDis : Int) (mask : List ExpectedAvailableFrequencyInfo)
    (m : ExpectedAvailableFrequencyInfo) (s : Int)
    (h : scanMask curr hiDis mask = (some m, s)) :
    m ∈ mask ∧ m.frequencyRange.lowFrequency ≤ curr ∧ curr < m.frequencyRange.highFrequency := by
  induction mask generalizing hiDis with
  | nil => simp [scanMask] at h
  | cons x rest ih =>
    rw [scanMask] at h
    by_cases h1 : x.frequencyRange.highFrequency ≤ curr
    · rw [if_pos h1] at h
      rcases ih hiDis h with ⟨hm, hle, hlt⟩
      exact ⟨List.mem_cons_of_mem _ hm, hle, hlt⟩
    · rw [if_neg h1] at h
      by_cases h2 : curr < x.frequencyRange.lowFrequency
      · rw [if_pos h2] at h
        rcases ih _ h with ⟨hm, hle, hlt⟩
        exact ⟨List.mem_cons_of_mem _ hm, hle, hlt⟩
      · rw [if_neg h2] at h
        rcases Prod.mk.injEq .. ▸ h with ⟨hx, -⟩
        cases hx
        exact ⟨List.mem_cons_self _ _, le_of_not_lt h2, lt_of_not_le h1⟩

theorem scanMask_none (curr hiDis : Int) (mask : List ExpectedAvailableFrequencyInfo)
    (s : Int) (h : scanMask curr hiDis mask = (none, s)) :
    (s = hiDis ∨ s ∈ mask.map fun m => m.frequencyRange.lowFrequency)
      ∧ s ≤ hiDis ∧ (curr < hiDis → curr < s) := by
  induction mask generalizing hiDis with
  | nil =>
    simp [scanMask] at h
    simp [h]
  | cons x rest ih =>
    rw [scanMask] at h
    by_cases h1 : x.frequencyRange.highFrequency ≤ curr
    · rw [if_pos h1] at h
      rcases ih hiDis h with ⟨hmem, hle, hlt⟩
      exact ⟨by simpa using hmem.imp id Or.inr, hle, hlt⟩
    · rw [if_neg h1] at h
      by_cases h2 : curr < x.frequencyRange.lowFrequency
      · rw [if_pos h2] at h
        rcases ih _ h with ⟨hmem, hle, hlt⟩
        refine ⟨?_, le_trans hle (min_le_left _ _), fun hc => hlt (lt_min hc h2)⟩
        rcases hmem with he | hm
        · rcases le_total hiDis x.frequencyRange.lowFrequency with hmin | hmin
          · exact Or.inl (by rw [he, min_eq_left hmin])
          · exact Or.inr (by simp [he, min_eq_right hmin])
        · exact Or.inr (by simpa using Or.inr (by simpa using hm))
      · rw [if_neg h2] at h
        exact absurd h (by simp)

theorem length_filter_mono {α : Type} (p q : α → Bool) (l : List α)
    (h : ∀ a, p a = true → q a = true) :
    (l.filter p).length ≤ (l.filter q).length := by
  induction l with
  | nil => simp
  | cons x rest ih =>
    by_cases hp : p x
    · simp [List.filter_cons, hp, h x hp]
      exact ih
    · simp only [List.filter_cons, hp, Bool.false_eq_true, if_false]
      by_cases hq : q x
      · simp only [hq, if_true, List.length_cons]
        exact Nat.le_succ_of_le ih
      · simp only [hq, Bool.false_eq_true, if_false]
        exact ih

theorem length_filter_lt_of_mem {l : List Int} {a b : Int} (hb : b ∈ l) (hab : a < b) :
    ((l.filter fun e => decide (b < e)).length) < ((l.filter fun e => decide (a < e)).length) := by
  induction l with
  | nil => simp at hb
  | cons x rest ih =>
    have hmono : ∀ e : Int, decide (b < e) = true → decide (a < e) = true := by
      intro e he
      simp only [decide_eq_true_eq] at he ⊢
      exact lt_trans hab he
    rcases List.mem_cons.mp hb with hx | hx
    · subst hx
      have h1 : decide (b < b) = false := by simp
      have h2 : decide (a < b) = true := by simp [hab]
      simp only [List.filter_cons, h1, h2, Bool.false_eq_true, if_false, if_true,
        List.length_cons]
      exact Nat.lt_succ_of_le (length_filter_mono _ _ rest hmono)
    · simp only [List.filter_cons]
      by_cases hbx : decide (b < x) = true
      · rw [if_pos hbx, if_pos (hmono x hbx)]
        simpa using Nat.succ_lt_succ (ih hx)
      · rw [if_neg hbx]
        by_cases hax : decide (a < x) = true
        · rw [if_pos hax]
          exact Nat.lt_succ_of_lt (ih hx)
        · rw [if_neg hax]
          exact ih hx

theorem sweepMeasure_lt (mask : List ExpectedAvailableFrequencyInfo) (hi curr next : Int)
    (hmem : next ∈ freqEndpoints mask hi) (hlt : curr < next) :
    sweepMeasure mask hi next < sweepMeasure mask hi curr :=
  length_filter_lt_of_mem hmem hlt

/-- Embedding of the while-loop of run_test_response over one received
frequency range (response_mask_runner.py lines 118-146): while the cursor
is below the received highFrequency, scan the mask entries; a covering
entry checks maxPsd and moves the cursor to its highFrequency, otherwise
the span up to the nearest bounding value is flagged disallowed and the
cursor moves past it. The loop terminates because the cursor always
advances to a strictly larger candidate endpoint. -/
def sweep (mask : List ExpectedAvailableFrequencyInfo) (hi : Int) (psd : ℚ) (curr : Int) :
    List SweepRecord :=
  if h : curr < hi then
    match hscan : scanMask curr hi mask with
    | (some m, _) =>
      SweepRecord.checked curr (min m.frequencyRange.highFrequency hi) (m.maxPsd.in_range psd)
        :: sweep mask hi psd m.frequencyRange.highFrequency
    | (none, hiDis) =>
      SweepRecord.disallowed curr hiDis :: sweep mask hi psd hiDis
  else []
termination_by sweepMeasure mask hi curr
decreasing_by
  · rcases scanMask_some _ _ _ _ _ hscan with ⟨hm, -, hlt⟩
    exact sweepMeasure_lt mask hi curr _
      (by simp [freqEndpoints]; right; right; exact ⟨m, hm, rfl⟩) hlt
  · rcases scanMask_none _ _ _ _ hscan with ⟨hmem, -, hlt⟩
    refine sweepMeasure_lt mask hi curr _ ?_ (hlt h)
    rcases hmem with he | he
    · simp [freqEndpoints, he]
    · exact List.mem_cons_of_mem _ (List.mem_append_left _ (by simpa using he))

theorem sweep_of_not_lt (mask : List ExpectedAvailableFrequencyInfo) (hi : Int) (psd : ℚ)
    (curr : Int) (h : ¬ curr < hi) : sweep mask hi psd curr = [] := by
  rw [sweep.eq_def]
  simp [h]

theorem sweep_eq_some (mask : List ExpectedAvailableFrequencyInfo) (hi : Int) (psd : ℚ)
    (curr : Int) (m : ExpectedAvailableFrequencyInfo) (s : Int)
    (h : curr < hi) (hs : scanMask curr hi mask = (some m, s)) :
    sweep mask hi psd curr =
      SweepRecord.checked curr (min m.frequencyRange.highFrequency hi) (m.maxPsd.in_range psd)
        :: sweep mask hi psd m.frequencyRange.highFrequency := by
  rw [sweep.eq_def, dif_pos h]
  split
  next m2 s2 heq =>
    rw [hs] at heq
    cases heq
    rfl
  next hiDis heq =>
    rw [hs] at heq
    cases heq

theorem sweep_eq_none (mask : List ExpectedAvailableFrequencyInfo) (hi : Int) (psd : ℚ)
    (curr : Int) (hiDis : Int)
    (h : curr < hi) (hs : scanMask curr hi mask = (none, hiDis)) :
    sweep mask hi psd curr =
      SweepRecord.disallowed curr hiDis :: sweep mask hi psd hiDis := by
  rw [sweep.eq_def, dif_pos h]
  split
  next m2 s2 heq =>
    rw [hs] at heq
    cases heq
  next hiDis2 heq =>
    rw [hs] at heq
    cases heq
    rfl

/-- Tiling property of a list of sweep records: they account for the whole
half-open range [lo, hi) left to right, each record picking up exactly
where the previous one ended, with no gap and no silently skipped
sub-range. -/
def covers (lo hi : Int) : List SweepRecord → Prop
  | [] => hi ≤ lo
  | r :: rs => r.lo = lo ∧ lo < r.hi ∧ r.hi ≤ hi ∧ covers r.hi hi rs

theorem sweep_covers (mask : List ExpectedAvailableFrequencyInfo) (hi : Int) (psd : ℚ)
    (curr : Int) : covers curr hi (sweep mask hi psd curr) := by
  induction curr using sweep.induct mask hi psd with
  | case1 curr h m s hscan ih =>
    rw [sweep_eq_some mask hi psd curr m s h hscan]
    rcases scanMask_some _ _ _ _ _ hscan with ⟨hm, -, hlt⟩
    refine ⟨rfl, lt_min hlt h, min_le_right _ _, ?_⟩
    rcases le_or_lt m.frequencyRange.highFrequency hi with hmh | hmh
    · rwa [min_eq_left hmh]
    · rw [min_eq_right (le_of_lt hmh)]
      rw [sweep_of_not_lt mask hi psd _ (not_lt_of_ge (le_of_lt hmh))]
      exact le_refl hi
  | case2 curr h hiDis hscan ih =>
    rw [sweep_eq_none mask hi psd curr hiDis h hscan]
    rcases scanMask_none _ _ _ _ hscan with ⟨-, hle, hlt⟩
    exact ⟨rfl, hlt h, hle, ih⟩
  | case3 curr h =>
    rw [sweep_of_not_lt mask hi psd curr h]
    exact le_of_not_lt h

theorem sweep_length_le (mask : List ExpectedAvailableFrequencyInfo) (hi : Int) (psd : ℚ)
    (curr : Int) : (sweep mask hi psd curr).length ≤ sweepMeasure mask hi curr := by
  induction curr using sweep.induct mask hi psd with
  | case1 curr h m s hscan ih =>
    rw [sweep_eq_some mask hi psd curr m s h hscan]
    rcases scanMask_some _ _ _ _ _ hscan with ⟨hm, -, hlt⟩
    refine le_trans (Nat.succ_le_succ ih) (Nat.succ_le_of_lt ?_)
    exact sweepMeasure_lt mask hi curr _
      (by simp [freqEndpoints]; right; right; exact ⟨m, hm, rfl⟩) hlt
  | case2 curr h hiDis hscan ih =>
    rw [sweep_eq_none mask hi psd curr hiDis h hscan]
    rcases scanMask_none _ _ _ _ hscan with ⟨hmem, -, hlt⟩
    refine le_trans (Nat.succ_le_succ ih) (Nat.succ_le_of_lt ?_)
    refine sweepMeasure_lt mask hi curr _ ?_ (hlt h)
    rcases hmem with he | he
    · simp [freqEndpoints, he]
    · exact List.mem_cons_of_mem _ (List.mem_append_left _ (by simpa using he))
  | case3 curr h =>
    rw [sweep_of_not_lt mask hi psd curr h]
    exact Nat.zero_le _

/-- C8: FrequencyRange.overlaps holds iff lowFrequency < other.highFrequency
and other.lowFrequency < highFrequency; it is symmetric, and two adjacent
ranges sharing only an endpoint never overlap. -/
theorem overlaps_characterisation (a b : FrequencyRange) :
    (a.overlaps b = true ↔
      (a.lowFrequency < b.highFrequency ∧ b.lowFrequency < a.highFrequency))
    ∧ a.overlaps b = b.overlaps a
    ∧ (a.highFrequency = b.lowFrequency → a.overlaps b = false) := by
  refine ⟨by simp [FrequencyRange.overlaps], ?_, ?_⟩
  · simp only [FrequencyRange.overlaps]
    exact Bool.and_comm _ _
  · intro h
    simp [FrequencyRange.overlaps, h]

/-- C2: the interval-sweep loop of run_test_response terminates for every
received range with lowFrequency < highFrequency and every finite mask: it
produces a finite record list, bounded in length by the number of candidate
endpoints, that tiles the whole received range [lo, hi) with no gap — every
sub-range is either checked against an ExpectedPowerRange or flagged
disallowed, none is silently skipped. -/
theorem sweep_terminates_accounts_all (mask : List ExpectedAvailableFrequencyInfo)
    (lo hi : Int) (psd : ℚ) (h : lo < hi) :
    covers lo hi (sweep mask hi psd lo)
    ∧ (sweep mask hi psd lo).length ≤ (freqEndpoints mask hi).length
    ∧ sweep mask hi psd lo ≠ [] := by
  refine ⟨sweep_covers mask hi psd lo, ?_, ?_⟩
  · exact le_trans (sweep_length_le mask hi psd lo) (List.length_filter_le _ _)
  · intro hnil
    have hc := sweep_covers mask hi psd lo
    rw [hnil] at hc
    exact absurd hc (not_le_of_lt h)

/-- Witness for C2 at a concrete input: one mask entry over [5945, 6425),
received range [6000, 6200). -/
theorem sweep_terminates_accounts_all_witness :
    covers 6000 6200
        (sweep [⟨⟨5945, 6425⟩, ⟨30, none, some 20⟩⟩] 6200 25 6000)
      ∧ (sweep [⟨⟨5945, 6425⟩, ⟨30, none, some 20⟩⟩] 6200 25 6000).length
          ≤ (freqEndpoints [⟨⟨5945, 6425⟩, ⟨30, none, some 20⟩⟩] 6200).length
      ∧ sweep [⟨⟨5945, 6425⟩, ⟨30, none, some 20⟩⟩] 6200 25 6000 ≠ [] :=
  sweep_terminates_accounts_all [⟨⟨5945, 6425⟩, ⟨30, none, some 20⟩⟩] 6000 6200 25 (by decide)

/-
Validator embeddings. The common_sdi_validator decorator converts dicts to
the typed dataclass and checks declared field types (sdi_validator_common);
on already-typed well-formed values both steps are the identity and true, so
the wrapper disappears in this typed embedding. Float finiteness and NaN
checks are vacuously true over the rationals and are noted where they occur.
The validators log their findings through the external logger side channel
and return only a boolean; the embeddings keep the boolean verdicts, and
the structured log stream is modelled for the mask runner (whose log
entries the claims are about) and for the polygon edge-intersection
warnings.
-/

/-- Embedding of SDIValidatorBase.validate_frequency_range: highFrequency
must be strictly greater than lowFrequency. -/
def validate_frequency_range (f : FrequencyRange) : Bool :=
  decide (f.lowFrequency < f.highFrequency)

/-- Embedding of SDIValidatorBase.validate_version: the string must match
the anchored pattern digits, dot, digits (membership of the supported
version list only warns). -/
def validate_version (s : String) : Bool :=
  match s.splitOn "." with
  | [a, b] => !a.isEmpty && !b.isEmpty && a.all Char.isDigit && b.all Char.isDigit
  | _ => false

/-- Embedding of InquiryResponseValidator.validate_supplemental_info: at
most one field may be populated and no populated field may be an empty
list. -/
def validate_supplemental_info (si : SupplementalInfo) : Bool :=
  let fields := [si.missingParams, si.invalidParams, si.unexpectedParams]
  decide ((fields.filter fun f => f.isSome).length ≤ 1)
    && fields.all fun f =>
      match f with
      | none => true
      | some l => decide (1 ≤ l.length)

/-- interface_common.ResponseCode.get_raw_value applied to a received
response code. interface_common.py and
available_spectrum_inquiry_response.py each define their own plain Enum
class named ResponseCode; Response.__post_init__ normalises a closed-set
raw value to a member of the latter class, which is neither an int nor an
instance of the interface_common class, so get_raw_value returns None for
every closed-set received code; a vendor value stays a plain int and is
returned as-is. -/
def get_raw_value_cross (code : Int) : Option Int :=
  if allResponseCodes.contains code then none else some code

/-- Embedding of InquiryResponseValidator.validate_response: the populated
supplementalInfo fields must be the one the response code family permits
(MISSING_PARAM 102, INVALID_VALUE 103, UNEXPECTED_PARAM 106; every other
code permits none). The dispatch is on get_raw_value of the normalised
received code across the two ResponseCode enum classes, so the 102, 103
and 106 arms are unreachable (those values are closed-set and map to
none): every received code takes the all-fields-disallowed default
branch. -/
def validate_response (r : Response) : Bool :=
  match r.supplementalInfo with
  | none => true
  | some si =>
    validate_supplemental_info si &&
      (let dis : List (Option (List String)) :=
        match get_raw_value_cross r.responseCode with
        | some 102 => [si.invalidParams, si.unexpectedParams]
        | some 103 => [si.missingParams, si.unexpectedParams]
        | some 106 => [si.missingParams, si.invalidParams]
        | _ => [si.missingParams, si.invalidParams, si.unexpectedParams]
       dis.all fun f => f.isNone)

/-- Embedding of InquiryResponseValidator.validate_available_frequency_info:
the range must be valid (the maxPsd finiteness check is vacuous over ℚ). -/
def validate_available_frequency_info (i : AvailableFrequencyInfo) : Bool :=
  validate_frequency_range i.frequencyRange

/-- Embedding of InquiryResponseValidator.validate_available_channel_info:
channelCfi and maxEirp must have equal lengths (the finiteness checks are
vacuous over ℚ). -/
def validate_available_channel_info (i : AvailableChannelInfo) : Bool :=
  decide (i.channelCfi.length = i.maxEirp.length)

/-- Embedding of the availabilityExpireTime format check: last character
must be Z and the rest must parse with datetime.fromisoformat, the latter
abstracted as the isoOk oracle. -/
def expireTimeOk (isoOk : String → Bool) (s : String) : Bool :=
  s.endsWith "Z" && isoOk (s.dropRight 1)

/-- Embedding of
InquiryResponseValidator.validate_available_spectrum_inquiry_response.
The SUCCESS test compares get_raw_value of the cross-enum-class
normalised received code with 0; since a received SUCCESS code maps to
none (see get_raw_value_cross), the test is true for every received code
and the validator always takes the availability-fields-disallowed branch,
flagging even a well-formed SUCCESS response that carries availability
info. -/
def validate_available_spectrum_inquiry_response (isoOk : String → Bool)
    (r : AvailableSpectrumInquiryResponse) : Bool :=
  validate_response r.response
    && (if get_raw_value_cross r.response.responseCode ≠ some 0 then
          r.availableFrequencyInfo.isNone && r.availableChannelInfo.isNone
            && r.availabilityExpireTime.isNone
        else
          r.availabilityExpireTime.isSome
            && !(r.availableChannelInfo.isNone && r.availableFrequencyInfo.isNone))
    && (match r.availableFrequencyInfo with
        | none => true
        | some l => l.all validate_available_frequency_info)
    && (match r.availableChannelInfo with
        | none => true
        | some l => l.all validate_available_channel_info)
    && (match r.availabilityExpireTime with
        | none => true
        | some s => expireTimeOk isoOk s)

/-- Embedding of
InquiryResponseValidator.validate_available_spectrum_inquiry_response_message
(the vendor extension list check is vacuously true). -/
def validate_available_spectrum_inquiry_response_message (isoOk : String → Bool)
    (m : AvailableSpectrumInquiryResponseMessage) : Bool :=
  validate_version m.version
    && (if m.availableSpectrumInquiryResponses.length < 1 then false
        else
          m.availableSpectrumInquiryResponses.all
              (validate_available_spectrum_inquiry_response isoOk)
            && decide ((m.availableSpectrumInquiryResponses.map
                  fun r => r.requestId).dedup.length
                = m.availableSpectrumInquiryResponses.length))

/-- Embedding of ResponseMaskValidator.validate_expected_power_range: the
NaN checks are vacuous over ℚ; lowerBound must not exceed upperBound,
nominalValue must not exceed upperBound, lowerBound must not exceed
nominalValue (an absent lowerBound is -inf and an absent nominalValue
skips its checks, as in the source). -/
def validate_expected_power_range (r : ExpectedPowerRange) : Bool :=
  (match r.lowerBound with
   | some lb => decide (lb ≤ r.upperBound)
   | none => true)
    && (match r.nominalValue with
        | some nv => decide (nv ≤ r.upperBound)
        | none => true)
    && (match r.lowerBound, r.nominalValue with
        | some lb, some nv => decide (lb ≤ nv)
        | _, _ => true)

/-- Embedding of ResponseMaskValidator.validate_expected_frequency_info. -/
def validate_expected_frequency_info (i : ExpectedAvailableFrequencyInfo) : Bool :=
  validate_frequency_range i.frequencyRange && validate_expected_power_range i.maxPsd

/-- Embedding of ResponseMaskValidator.validate_expected_channel_info: the
channel data with maxEirp mocked by zeros must satisfy
validate_available_channel_info, every maxEirp entry must be a valid
power range, and channelCfi must hold no duplicates. -/
def validate_expected_channel_info (i : ExpectedAvailableChannelInfo) : Bool :=
  validate_available_channel_info
      ⟨i.globalOperatingClass, i.channelCfi, i.maxEirp.map fun _ => 0⟩
    && i.maxEirp.all validate_expected_power_range
    && decide (i.channelCfi.length = i.channelCfi.dedup.length)

/-- Pairwise overlap scan of the expected frequency info list
(response_mask_validator.py lines 249-256): false iff some entry overlaps
a later entry. -/
def overlapPairsOk : List ExpectedAvailableFrequencyInfo → Bool
  | [] => true
  | x :: rest =>
    (rest.all fun y => !(x.frequencyRange.overlaps y.frequencyRange)) && overlapPairsOk rest

/-- Availability-info block of
ResponseMaskValidator.validate_expected_spectrum_inquiry_response
(lines 216-259). The nesting follows the source exactly: the
expectedFrequencyInfo checks (individual validity and the pairwise
overlap scan, lines 238-259) sit inside the block guarded by
expectedChannelInfo being present (line 217), so they run only when the
mask also carries channel info. -/
def validate_expected_availability_info (exp : ExpectedSpectrumInquiryResponse) : Bool :=
  match exp.expectedChannelInfo with
  | none => true
  | some chans =>
    chans.all validate_expected_channel_info
      && decide ((chans.map fun c => c.globalOperatingClass).dedup.length
          = chans.length)
      && (match exp.expectedFrequencyInfo with
          | none => true
          | some freqs =>
            freqs.all validate_expected_frequency_info && overlapPairsOk freqs)

/-- Embedding of
ResponseMaskValidator.validate_expected_spectrum_inquiry_response. The
expectedResponseCodes block (lines 181-214) evaluates
afc_exp.afc_resp.ResponseCode (line 188), but the expected_inquiry_response
module has no afc_resp attribute, and the enclosing try catches only
TypeError: for every mask whose expectedResponseCodes list is nonempty the
function raises AttributeError (modelled Except.error) instead of
returning. An empty list sets is_valid to False without reaching line 188,
after which the availability-info block still runs and the function
returns False. The SUCCESS-exclusivity and availability-presence checks
(lines 191-211) sit after the raising line and are unreachable. -/
def validate_expected_spectrum_inquiry_response (exp : ExpectedSpectrumInquiryResponse) :
    Except String Bool :=
  if exp.expectedResponseCodes.length < 1 then
    Except.ok (false && validate_expected_availability_info exp)
  else
    Except.error "AttributeError: module expected_inquiry_response has no attribute afc_resp"

/-- Boolean outcome of a sub-mask validation where the error case cannot
occur (guarded by a preceding any-raises test). -/
def exceptBoolValue : Except String Bool → Bool
  | .ok b => b
  | .error _ => false

/-- Embedding of
ResponseMaskValidator.validate_expected_spectrum_inquiry_response_message.
The per-sub-mask validations run inside a try that catches
(TypeError, AttributeError) at line 300: if any sub-mask has a nonempty
expectedResponseCodes list, its validation raises AttributeError, the
whole block is abandoned (the requestId-uniqueness check included) and
is_valid becomes False; otherwise the sub-results are conjoined with the
uniqueness check. -/
def validate_expected_spectrum_inquiry_response_message
    (m : ExpectedSpectrumInquiryResponseMessage) : Bool :=
  validate_version m.version
    && (if m.expectedSpectrumInquiryResponses.length < 1 then false
        else
          if m.expectedSpectrumInquiryResponses.any
              (fun e => isErr (validate_expected_spectrum_inquiry_response e)) then
            false
          else
            (m.expectedSpectrumInquiryResponses.all fun e =>
                exceptBoolValue (validate_expected_spectrum_inquiry_response e))
              && decide ((m.expectedSpectrumInquiryResponses.map
                    fun r => r.requestId).dedup.length
                  = m.expectedSpectrumInquiryResponses.length))

/-
Embedding of ResponseMaskRunner.run_test_response. The source accumulates a
single boolean with is_valid-style assignments and never resets it to True,
so the result is the conjunction of the outcomes of the independent checks,
and the log is the concatenation of the entries in emission order. The
ValueError raises are modelled by Except.error (log entries before a raise
are dropped with the raise, as the log sink is external to the return
value). -/

/-- Embedding of the requestId check (response_mask_runner.py lines 82-87). -/
def requestIdCheck (expected : ExpectedSpectrumInquiryResponse)
    (received : AvailableSpectrumInquiryResponse) : Bool × List LogEntry :=
  if expected.requestId ≠ received.requestId then
    (false, [(Severity.error, LogMsg.requestIdMismatch received.requestId expected.requestId)])
  else
    (true, [(Severity.info, LogMsg.requestIdMatch expected.requestId)])

/-- Embedding of the rulesetId check (response_mask_runner.py lines 90-95). -/
def rulesetIdCheck (expected : ExpectedSpectrumInquiryResponse)
    (received : AvailableSpectrumInquiryResponse) : Bool × List LogEntry :=
  if expected.rulesetId ≠ received.rulesetId then
    (false, [(Severity.error, LogMsg.rulesetIdMismatch received.rulesetId expected.rulesetId)])
  else
    (true, [(Severity.info, LogMsg.rulesetIdMatch expected.rulesetId)])

/-- Membership of the normalised received response code in a mask code
list, as the Python in-operator computes it. The received code is
normalised to the ResponseCode enum class of
available_spectrum_inquiry_response (closed-set value) or left a plain
int (vendor value); the mask list holds members of the distinct
interface_common ResponseCode enum class (closed-set values) or plain
ints (vendor values). Members of distinct plain Enum classes never
compare equal and an enum member never equals an int, so the test can
succeed only for a vendor received code against a vendor mask entry of
the same raw value: a closed-set received code is a member of no mask
list. -/
def codeInMaskList (code : Int) (l : List Int) : Bool :=
  !(allResponseCodes.contains code) && l.contains code

/-- Embedding of the response-code check (response_mask_runner.py lines
98-108), with the in-operator semantics of codeInMaskList: a code found
in expectedResponseCodes passes with an info entry, a code found in
disallowedResponseCodes fails hard with an error entry, and any other
code — including, by the cross-enum-class mismatch, every closed-set
code — only logs a warning and leaves the result untouched. -/
def responseCodeCheck (expected : ExpectedSpectrumInquiryResponse) (code : Int) :
    Bool × List LogEntry :=
  if !(codeInMaskList code expected.expectedResponseCodes) then
    if codeInMaskList code expected.disallowedResponseCodes then
      (false, [(Severity.error, LogMsg.responseCodeDisallowed code)])
    else
      (true, [(Severity.warning, LogMsg.responseCodeUnexpected code)])
  else
    (true, [(Severity.info, LogMsg.responseCodeMatches code)])

/-- Log entry a sweep record emits, mirroring the _error and _info calls of
response_mask_runner.py lines 133-139 and 145. -/
def recordToLog : SweepRecord → LogEntry
  | .checked lo hi true => (Severity.info, LogMsg.maskMatches lo hi)
  | .checked lo hi false => (Severity.error, LogMsg.maskViolated lo hi)
  | .disallowed lo hi => (Severity.error, LogMsg.transmissionDisallowed lo hi)

/-- Whether a sweep record reports no violation. -/
def SweepRecord.ok : SweepRecord → Bool
  | .checked _ _ psdOk => psdOk
  | .disallowed _ _ => false

/-- Embedding of the outer for-loop over received frequency infos
(response_mask_runner.py lines 117-146): each received range is swept
against the mask entries; the accumulated boolean is the conjunction of
all record verdicts. -/
def checkFreqInfos (entries : List ExpectedAvailableFrequencyInfo) :
    List AvailableFrequencyInfo → Bool × List LogEntry
  | [] => (true, [])
  | info :: rest =>
    let recs := sweep entries info.frequencyRange.highFrequency info.maxPsd
      info.frequencyRange.lowFrequency
    let res := checkFreqInfos entries rest
    ((recs.all fun r => r.ok) && res.1, recs.map recordToLog ++ res.2)

/-- Embedding of the frequency-range section of run_test_response
(lines 111-146): skipped when the response carries no frequency info; a
hard failure when it does but the mask has none. -/
def frequencyCheck (expected : ExpectedSpectrumInquiryResponse)
    (received : AvailableSpectrumInquiryResponse) : Bool × List LogEntry :=
  match received.availableFrequencyInfo with
  | none => (true, [])
  | some infos =>
    match expected.expectedFrequencyInfo with
    | none => (false, [(Severity.error, LogMsg.freqInfoNotInMask)])
    | some entries => checkFreqInfos entries infos

/-- Embedding of the matching_expected_class filter
(response_mask_runner.py lines 156-159): non-placeholder mask entries with
the same globalOperatingClass. -/
def matchingExpectedClass (expChan : List ExpectedAvailableChannelInfo)
    (rc : AvailableChannelInfo) : List ExpectedAvailableChannelInfo :=
  expChan.filter fun e =>
    decide (e.globalOperatingClass = rc.globalOperatingClass)
      && (decide (e.channelCfi.length ≠ 0) || decide (e.maxEirp.length ≠ 0))

/-- Embedding of the per-pair channel checks
(response_mask_runner.py lines 179-210) over the zipped
(channelCfi, maxEirp) pairs of one received class: a CFI absent from the
matching mask entry is a hard failure, a CFI matched by exactly one mask
pair checks the EIRP against the expected range, and a CFI matched by
several mask pairs raises (modelled Except.error). -/
def checkChannelPairs (goc : ℚ) (m : ExpectedAvailableChannelInfo) :
    List (ℚ × ℚ) → Except String (Bool × List LogEntry)
  | [] => .ok (true, [])
  | (cfi, eirp) :: rest =>
    match (m.channelCfi.zip m.maxEirp).filter fun p => decide (p.1 = cfi) with
    | [] =>
      (checkChannelPairs goc m rest).map fun res =>
        (false && res.1, (Severity.error, LogMsg.gocCfiNotPermitted goc cfi) :: res.2)
    | [(_, e)] =>
      let r : Bool × LogEntry :=
        if !(e.in_range eirp) then
          (false, (Severity.error, LogMsg.eirpOutOfRange goc cfi))
        else
          (true, (Severity.info, LogMsg.eirpInRange goc cfi))
      (checkChannelPairs goc m rest).map fun res => (r.1 && res.1, r.2 :: res.2)
    | _ :: _ :: _ =>
      .error "Response mask has multiple channel masks with same GOC and channelCfi"

/-- Embedding of the outer for-loop over received channel classes
(response_mask_runner.py lines 154-210): a received class with no matching
non-placeholder mask class is permitted only when empty; exactly one match
runs the per-pair checks; several matches raise (modelled Except.error). -/
def checkChannelClasses (expChan : List ExpectedAvailableChannelInfo) :
    List AvailableChannelInfo → Except String (Bool × List LogEntry)
  | [] => .ok (true, [])
  | rc :: rest =>
    match matchingExpectedClass expChan rc with
    | [] =>
      let r : Bool × List LogEntry :=
        if decide (rc.channelCfi.length ≠ 0) || decide (rc.maxEirp.length ≠ 0) then
          (false, [(Severity.error, LogMsg.noAllowedChannelsForGoc rc.globalOperatingClass)])
        else
          (true, [])
      (checkChannelClasses expChan rest).map fun res => (r.1 && res.1, r.2 ++ res.2)
    | [m] =>
      (checkChannelPairs rc.globalOperatingClass m (rc.channelCfi.zip rc.maxEirp)).bind
        fun r1 =>
          (checkChannelClasses expChan rest).map fun res => (r1.1 && res.1, r1.2 ++ res.2)
    | _ :: _ :: _ =>
      .error "Response mask has multiple channel info objs with same globalOperatingClass"

/-- Embedding of the channel-info section of run_test_response
(lines 148-210): skipped when the response carries no channel info; a hard
failure when it does but the mask has none. -/
def channelCheck (expected : ExpectedSpectrumInquiryResponse)
    (received : AvailableSpectrumInquiryResponse) : Except String (Bool × List LogEntry) :=
  match received.availableChannelInfo with
  | none => .ok (true, [])
  | some classes =>
    match expected.expectedChannelInfo with
    | none => .ok (false, [(Severity.error, LogMsg.chanInfoNotInMask)])
    | some expChan => checkChannelClasses expChan classes

/-- Embedding of the vendor-extension warnings of run_test_response
(lines 212-218): extensions on either side are warned about, never
compared. -/
def vendorWarnings (expected : ExpectedSpectrumInquiryResponse)
    (received : AvailableSpectrumInquiryResponse) : List LogEntry :=
  (if received.vendorExtensions.isSome then
    [(Severity.warning, LogMsg.vendorExtInReceived)] else [])
  ++ (if expected.vendorExtensions.isSome then
    [(Severity.warning, LogMsg.vendorExtInExpected)] else [])

/-- Embedding of ResponseMaskRunner.run_test_response. When
validate_objects is set, the received response is re-validated first
(failure is only a warning) and the mask is re-validated next; the mask
re-validation either raises AttributeError itself (nonempty
expectedResponseCodes, propagated unhandled out of run_test_response) or
reports False, upon which run_test_response raises ValueError — both
modelled Except.error, log entries preceding a raise dropped with it, as
the log sink is external to the return value. The returned boolean is the
conjunction of the requestId, rulesetId, response-code, frequency and
channel checks. -/
def run_test_response (expected : ExpectedSpectrumInquiryResponse)
    (received : AvailableSpectrumInquiryResponse) (validate_objects : Bool)
    (isoOk : String → Bool) : Except String (Bool × List LogEntry) :=
  (if validate_objects then
    match validate_expected_spectrum_inquiry_response expected with
    | .error e => Except.error e
    | .ok maskValid =>
      if !maskValid then
        Except.error "Response mask is invalid"
      else
        Except.ok
          ((if validate_available_spectrum_inquiry_response isoOk received then
              [(Severity.info, LogMsg.recvResponseValidationPassed)]
            else
              [(Severity.warning, LogMsg.recvResponseValidationFailed)])
            ++ [(Severity.info, LogMsg.maskValidationPassed)])
   else Except.ok []).bind fun l0 =>
    let r1 := requestIdCheck expected received
    let r2 := rulesetIdCheck expected received
    let r3 := responseCodeCheck expected received.response.responseCode
    let r4 := frequencyCheck expected received
    (channelCheck expected received).map fun r5 =>
      ((((r1.1 && r2.1) && r3.1) && r4.1) && r5.1,
        l0 ++ r1.2 ++ r2.2 ++ r3.2 ++ r4.2 ++ r5.2 ++ vendorWarnings expected received)

/-- Count of received responses carrying the given requestId
(response_mask_runner.py lines 277-278). -/
def countMatchingIds (id : String) (resps : List AvailableSpectrumInquiryResponse) : Nat :=
  (resps.filter fun r => decide (r.requestId = id)).length

/-- Count of expected responses carrying the given requestId
(response_mask_runner.py lines 297-298). -/
def countExpectedIds (id : String) (exps : List ExpectedSpectrumInquiryResponse) : Nat :=
  (exps.filter fun e => decide (e.requestId = id)).length

/-- Embedding of the inner loop of run_test_response_message (lines
284-293): every received response whose requestId matches the expected
sub-mask is compared with run_test_response (validate_objects left at its
default False), and a failed comparison is a hard failure. -/
def runSubResponses (sub_exp : ExpectedSpectrumInquiryResponse) (isoOk : String → Bool) :
    List AvailableSpectrumInquiryResponse → Except String (Bool × List LogEntry)
  | [] => .ok (true, [])
  | r :: rest =>
    if r.requestId = sub_exp.requestId then
      (run_test_response sub_exp r false isoOk).bind fun r1 =>
        let e : Bool × List LogEntry :=
          if !r1.1 then
            (false, [(Severity.error, LogMsg.responseViolatesMask r.requestId)])
          else
            (true, [(Severity.info, LogMsg.responseSatisfiesMask r.requestId)])
        (runSubResponses sub_exp isoOk rest).map fun res =>
          (e.1 && res.1, (r1.2 ++ e.2) ++ res.2)
    else
      runSubResponses sub_exp isoOk rest

/-- Embedding of the loop over expected sub-masks
(response_mask_runner.py lines 276-293): an expected requestId matched by
a number of received responses other than one is a hard failure; exactly
one match runs the sub-comparison. -/
def expectedIdChecks (resps : List AvailableSpectrumInquiryResponse) (isoOk : String → Bool) :
    List ExpectedSpectrumInquiryResponse → Except String (Bool × List LogEntry)
  | [] => .ok (true, [])
  | sub_exp :: rest =>
    let n := countMatchingIds sub_exp.requestId resps
    if n ≠ 1 then
      (expectedIdChecks resps isoOk rest).map fun res =>
        (false && res.1, (Severity.error, LogMsg.expectedIdCount sub_exp.requestId n) :: res.2)
    else
      (runSubResponses sub_exp isoOk resps).bind fun r1 =>
        (expectedIdChecks resps isoOk rest).map fun res => (r1.1 && res.1, r1.2 ++ res.2)

/-- Embedding of the loop over received responses
(response_mask_runner.py lines 296-301): a received requestId that appears
in no expected sub-mask is a hard failure. -/
def unexpectedIdChecks (exps : List ExpectedSpectrumInquiryResponse) :
    List AvailableSpectrumInquiryResponse → Bool × List LogEntry
  | [] => (true, [])
  | r :: rest =>
    let res := unexpectedIdChecks exps rest
    if countExpectedIds r.requestId exps = 0 then
      (false && res.1, (Severity.error, LogMsg.unexpectedRequestId r.requestId) :: res.2)
    else
      res

/-- Embedding of the vendor-extension warnings of run_test_response_message
(lines 303-308). -/
def vendorMsgWarnings (expected : ExpectedSpectrumInquiryResponseMessage)
    (received : AvailableSpectrumInquiryResponseMessage) : List LogEntry :=
  (if received.vendorExtensions.isSome then
    [(Severity.warning, LogMsg.vendorExtInReceivedMsg)] else [])
  ++ (if expected.vendorExtensions.isSome then
    [(Severity.warning, LogMsg.vendorExtInExpectedMsg)] else [])

/-- Embedding of ResponseMaskRunner.run_test_response_message: version and
response-count equality, exactly one received response per expected
requestId, per-response mask comparison, and no unexpected received
requestId. -/
def run_test_response_message (expected : ExpectedSpectrumInquiryResponseMessage)
    (received : AvailableSpectrumInquiryResponseMessage) (validate_objects : Bool)
    (isoOk : String → Bool) : Except String (Bool × List LogEntry) :=
  if validate_objects
      && !(validate_expected_spectrum_inquiry_response_message expected) then
    .error "Response mask is invalid"
  else
    let l0 : List LogEntry :=
      if validate_objects then
        (if validate_available_spectrum_inquiry_response_message isoOk received then
          [(Severity.info, LogMsg.recvMsgValidationPassed)]
         else
          [(Severity.warning, LogMsg.recvMsgValidationFailed)])
        ++ [(Severity.info, LogMsg.maskMsgValidationPassed)]
      else []
    let rv : Bool × List LogEntry :=
      if received.version ≠ expected.version then
        (false, [(Severity.error, LogMsg.versionMismatch received.version expected.version)])
      else (true, [])
    let rc : Bool × List LogEntry :=
      if received.availableSpectrumInquiryResponses.length
          ≠ expected.expectedSpectrumInquiryResponses.length then
        (false, [(Severity.error, LogMsg.respCountMismatch
          received.availableSpectrumInquiryResponses.length
          expected.expectedSpectrumInquiryResponses.length)])
      else (true, [])
    (expectedIdChecks received.availableSpectrumInquiryResponses isoOk
        expected.expectedSpectrumInquiryResponses).map fun r3 =>
      let r4 := unexpectedIdChecks expected.expectedSpectrumInquiryResponses
        received.availableSpectrumInquiryResponses
      (((rv.1 && rc.1) && r3.1) && r4.1,
        l0 ++ rv.2 ++ rc.2 ++ r3.2 ++ r4.2 ++ vendorMsgWarnings expected received)

/-- Lexicographic boolean order on rational lists, as Python compares the
list-valued sort key channelCfi. -/
def lexLe : List ℚ → List ℚ → Bool
  | [], _ => true
  | _ :: _, [] => false
  | a :: as, b :: bs => if a < b then true else if b < a then false else lexLe as bs

/-- Embedding of ExpectedSpectrumInquiryResponse.__post_init__ at the typed
level: when no disallowedResponseCodes list is supplied (none), it is
computed once as the members of the closed ResponseCode enumeration not
contained in expectedResponseCodes, in enumeration order; a supplied list
is kept as-is. The frequency info entries are sorted by lowFrequency, the
channel info entries by their channelCfi list. -/
def mkExpectedSpectrumInquiryResponse (requestId rulesetId : String)
    (expectedResponseCodes : List Int)
    (expectedFrequencyInfo : Option (List ExpectedAvailableFrequencyInfo))
    (expectedChannelInfo : Option (List ExpectedAvailableChannelInfo))
    (vendorExtensions : Option (List VendorExtension))
    (disallowedResponseCodes : Option (List Int)) : ExpectedSpectrumInquiryResponse :=
  ⟨requestId, rulesetId, expectedResponseCodes,
    expectedFrequencyInfo.map fun l =>
      l.mergeSort fun a b =>
        decide (a.frequencyRange.lowFrequency ≤ b.frequencyRange.lowFrequency),
    expectedChannelInfo.map fun l =>
      l.mergeSort fun a b => lexLe a.channelCfi b.channelCfi,
    vendorExtensions,
    match disallowedResponseCodes with
    | none => allResponseCodes.filter fun c => !(expectedResponseCodes.contains c)
    | some l => l⟩

/-
Geometry subsystem (request_validator.py). The spherical float primitives
(geopy great-circle distance and the cartesian great-circle edge
intersection of _Edge.intersects) are abstracted as oracles dist and
intersects; the control flow around them is translated from the source.
-/

/-- Location point (available_spectrum_inquiry_request.Point). -/
structure Point where
  longitude : ℚ
  latitude : ℚ
  deriving DecidableEq, Repr

/-- Polygon edge (request_validator._Edge); the cached float length feeds
only the abstracted spherical intersection and is dropped. -/
structure Edge where
  vertex1 : Point
  vertex2 : Point
  deriving DecidableEq, Repr

/-- Log messages of the polygon validators
(request_validator.InquiryRequestValidator). -/
inductive PolyLog where
  | vertexCountWarning
  | nonUniqueVerticesWarning
  | separationWarning
  | edgeIntersection (e1 e2 : Edge)
  deriving DecidableEq, Repr

/-- Consecutive vertex pairs in source iteration order, starting with the
wrap-around pair (last vertex, first vertex), as range(-1, num_pts-1)
produces. -/
def cyclePairs {α : Type} : List α → List (α × α)
  | [] => []
  | x :: xs => List.zip ((x :: xs).getLastD x :: x :: xs) (x :: xs)

/-- Unordered pair combinations in itertools.combinations order. -/
def pairCombos {α : Type} : List α → List (α × α)
  | [] => []
  | x :: xs => (xs.map fun y => (x, y)) ++ pairCombos xs

/-- Edge pairs to test, with the (first edge, last edge) pair swapped as in
response to the source reordering (request_validator.py lines 217-218). -/
def orderedCombos (edges : List Edge) : List (Edge × Edge) :=
  (pairCombos edges).map fun p =>
    if edges.head? = some p.1 ∧ edges.getLast? = some p.2 then (p.2, p.1) else p

/-- Embedding of InquiryRequestValidator.validate_point: latitude within
[-90, 90] and longitude within [-180, 180]. -/
def validate_point (p : Point) : Bool :=
  decide (-90 ≤ p.latitude) && decide (p.latitude ≤ 90)
    && decide (-180 ≤ p.longitude) && decide (p.longitude ≤ 180)

/-- Embedding of
InquiryRequestValidator._validate_polygon_vertex_separation: every
consecutive vertex pair (wrap-around first) must be within
155000 m (130 km protocol limit plus the 25 km tolerance margin), the
distance supplied by the dist oracle. -/
def validatePolygonVertexSeparation (dist : Point → Point → ℚ) (boundary : List Point) :
    Bool :=
  (cyclePairs boundary).all fun p => !(decide (155000 < dist p.1 p.2))

/-- Embedding of InquiryRequestValidator._validate_polygon_edge_intersection:
build the cyclic edge list, test every edge pair with the intersects
oracle, warn on each intersecting pair and fail when any intersects. -/
def validatePolygonEdgeIntersection (intersects : Edge → Edge → Bool)
    (boundary : List Point) : Bool × List (Severity × PolyLog) :=
  let edges := (cyclePairs boundary).map fun p => Edge.mk p.1 p.2
  let pairs := orderedCombos edges
  (pairs.all fun p => !(intersects p.1 p.2),
    pairs.filterMap fun p =>
      if intersects p.1 p.2 then
        some (Severity.warning, PolyLog.edgeIntersection p.1 p.2)
      else none)

/-- Embedding of InquiryRequestValidator.validate_linear_polygon. The
strict parameter models the _enforce_strict_polygon class attribute,
False by default: vertex-count, uniqueness, separation and
edge-intersection failures only warn unless strict is set, in which case
each failure also makes the result false (is_valid &= not strict). Point
validity always affects the result. The geopy-dependent checks are
modelled as present (no ImportError path); the count, uniqueness and
separation warnings are each modelled by one summary entry, while the
per-pair edge-intersection warnings are kept exactly. -/
def validate_linear_polygon (strict : Bool) (dist : Point → Point → ℚ)
    (intersects : Edge → Edge → Bool) (outerBoundary : List Point) :
    Bool × List (Severity × PolyLog) :=
  let pointsOk := outerBoundary.all validate_point
  let n := outerBoundary.length
  let countOk := decide (3 ≤ n) && decide (n ≤ 15)
  let uniqueOk := decide (n = outerBoundary.dedup.length)
  let sepOk := validatePolygonVertexSeparation dist outerBoundary
  let edge := validatePolygonEdgeIntersection intersects outerBoundary
  (pointsOk && (countOk || !strict) && (uniqueOk || !strict)
      && (sepOk || !strict) && (edge.1 || !strict),
    (if countOk then [] else [(Severity.warning, PolyLog.vertexCountWarning)])
      ++ (if uniqueOk then [] else [(Severity.warning, PolyLog.nonUniqueVerticesWarning)])
      ++ (if sepOk then [] else [(Severity.warning, PolyLog.separationWarning)])
      ++ edge.2)

/-- C5 evaluation: the claimed trichotomy of the response-code check is
false of the program. Because the received code is normalised to one
ResponseCode enum class while mask codes are normalised to another,
every closed-set received code is a member of neither list: a received
SUCCESS against a mask expecting exactly SUCCESS takes the
vendor-warning branch instead of the info/pass branch, a received
SUCCESS against a mask whose derived disallowedResponseCodes contains
SUCCESS takes the same warning branch instead of the hard failure, and
in general every member of the closed enumeration leaves the boolean
untouched with a lone warning entry whatever the mask says. -/
theorem closed_codes_never_match :
    responseCodeCheck
        ⟨"r1", "US_47_CFR_PART_15_SUBPART_E", [0], none, none, none,
          [-1, 100, 101, 102, 103, 106, 300, 301]⟩ 0
      = (true, [(Severity.warning, LogMsg.responseCodeUnexpected 0)])
    ∧ responseCodeCheck
        ⟨"r1", "US_47_CFR_PART_15_SUBPART_E", [-1], none, none, none,
          [0, 100, 101, 102, 103, 106, 300, 301]⟩ 0
      = (true, [(Severity.warning, LogMsg.responseCodeUnexpected 0)])
    ∧ (∀ (exp : ExpectedSpectrumInquiryResponse), ∀ code ∈ allResponseCodes,
        responseCodeCheck exp code
          = (true, [(Severity.warning, LogMsg.responseCodeUnexpected code)])) := by
  refine ⟨by decide, by decide, ?_⟩
  intro exp code hcode
  have hmem : allResponseCodes.contains code = true := by
    exact List.elem_eq_true_of_mem hcode
  rw [responseCodeCheck]
  rw [codeInMaskList, codeInMaskList, hmem]
  simp

/-- C7: an ExpectedSpectrumInquiryResponse constructed without an explicit
disallowedResponseCodes list gets, once at construction, the members of
the closed ResponseCode enumeration not contained in
expectedResponseCodes; a supplied list is kept untouched, and the
expectedResponseCodes field is not altered by the derivation. The
embedding is a pure value, matching the source lifecycle in which no
entity is mutated after construction. -/
theorem disallowed_codes_derived_at_construction (requestId rulesetId : String)
    (codes : List Int) (freq : Option (List ExpectedAvailableFrequencyInfo))
    (chan : Option (List ExpectedAvailableChannelInfo))
    (vx : Option (List VendorExtension)) :
    ((mkExpectedSpectrumInquiryResponse requestId rulesetId codes freq chan vx
        none).disallowedResponseCodes
      = allResponseCodes.filter fun c => !(codes.contains c))
    ∧ (∀ c : Int,
        c ∈ (mkExpectedSpectrumInquiryResponse requestId rulesetId codes freq chan vx
            none).disallowedResponseCodes
          ↔ c ∈ allResponseCodes ∧ c ∉ codes)
    ∧ (∀ l : List Int,
        (mkExpectedSpectrumInquiryResponse requestId rulesetId codes freq chan vx
            (some l)).disallowedResponseCodes = l)
    ∧ (mkExpectedSpectrumInquiryResponse requestId rulesetId codes freq chan vx
        none).expectedResponseCodes = codes := by
  refine ⟨rfl, ?_, fun l => rfl, rfl⟩
  intro c
  simp [mkExpectedSpectrumInquiryResponse, List.mem_filter]

/-- C3 evaluation: a mask with two overlapping expected frequency infos
and a well-formed (nonempty) expectedResponseCodes list makes
validate_expected_spectrum_inquiry_response raise AttributeError
(line 188) — it returns neither False nor True. Only masks with an empty
code list return at all, and those return False for the empty-list rule
alone: the variant with non-overlapping entries returns the identical
False, and the overlap scan, nested inside the channel-info branch
(line 217), never influences a returned value when expectedChannelInfo is
absent. Both behaviours contradict the claim that such masks are rejected
with a returned False. -/
theorem overlap_masks_crash_not_rejected :
    isErr (validate_expected_spectrum_inquiry_response
        ⟨"r1", "US_47_CFR_PART_15_SUBPART_E", [0],
          some [⟨⟨5925, 6425⟩, ⟨30, none, none⟩⟩, ⟨⟨6000, 6500⟩, ⟨20, none, none⟩⟩],
          none, none, [-1, 100, 101, 102, 103, 106, 300, 301]⟩) = true
    ∧ FrequencyRange.overlaps ⟨5925, 6425⟩ ⟨6000, 6500⟩ = true
    ∧ validate_expected_spectrum_inquiry_response
        ⟨"r1", "US_47_CFR_PART_15_SUBPART_E", [],
          some [⟨⟨5925, 6425⟩, ⟨30, none, none⟩⟩, ⟨⟨6000, 6500⟩, ⟨20, none, none⟩⟩],
          none, none, [-1, 100, 101, 102, 103, 106, 300, 301]⟩ = Except.ok false
    ∧ validate_expected_spectrum_inquiry_response
        ⟨"r1", "US_47_CFR_PART_15_SUBPART_E", [],
          some [⟨⟨5925, 6425⟩, ⟨30, none, none⟩⟩, ⟨⟨6500, 6800⟩, ⟨20, none, none⟩⟩],
          none, none, [-1, 100, 101, 102, 103, 106, 300, 301]⟩ = Except.ok false := by
  refine ⟨by decide, by decide, by rfl, by rfl⟩

theorem zip_of_append_right {α β : Type} :
    ∀ (as : List α) (bs extra : List β), as.length ≤ bs.length →
      as.zip (bs ++ extra) = as.zip bs := by
  intro as
  induction as with
  | nil => intro bs extra hb; simp
  | cons a as ih =>
    intro bs extra hb
    cases bs with
    | nil => simp at hb
    | cons b bs =>
      simp only [List.cons_append, List.zip_cons_cons, List.cons.injEq, true_and]
      exact ih bs extra (Nat.le_of_succ_le_succ hb)

theorem zip_of_append_left {α β : Type} :
    ∀ (as extra : List α) (bs : List β), bs.length ≤ as.length →
      (as ++ extra).zip bs = as.zip bs := by
  intro as
  induction as with
  | nil =>
    intro extra bs hb
    rw [List.length_nil, Nat.le_zero, List.length_eq_zero] at hb
    subst hb
    simp
  | cons a as ih =>
    intro extra bs hb
    cases bs with
    | nil => simp
    | cons b bs =>
      simp only [List.cons_append, List.zip_cons_cons, List.cons.injEq, true_and]
      exact ih extra bs (Nat.le_of_succ_le_succ hb)

/-- C10: the channel reconciliation of run_test_response forms received
(channelCfi, maxEirp) pairs by zipping the two lists, so surplus entries
of the longer list are silently ignored: appending surplus CFIs beyond the
maxEirp length (or surplus EIRPs beyond the channelCfi length) leaves the
per-pair check unchanged, and a concrete run whose received class lists a
CFI absent from the mask still returns true with a log that never mentions
that CFI (the code-check entry is the vendor-extension warning the
cross-enum-class comparison produces for the SUCCESS code). -/
theorem surplus_channel_entries_ignored :
    (∀ (goc : ℚ) (m : ExpectedAvailableChannelInfo) (cfis extra eirps : List ℚ),
      eirps.length ≤ cfis.length →
        checkChannelPairs goc m ((cfis ++ extra).zip eirps)
          = checkChannelPairs goc m (cfis.zip eirps))
    ∧ (∀ (goc : ℚ) (m : ExpectedAvailableChannelInfo) (cfis extra eirps : List ℚ),
      cfis.length ≤ eirps.length →
        checkChannelPairs goc m (cfis.zip (eirps ++ extra))
          = checkChannelPairs goc m (cfis.zip eirps))
    ∧ run_test_response
        ⟨"rA", "US_47_CFR_PART_15_SUBPART_E", [0], none,
          some [⟨131, [1], [⟨30, none, some 20⟩]⟩], none,
          [-1, 100, 101, 102, 103, 106, 300, 301]⟩
        ⟨"rA", "US_47_CFR_PART_15_SUBPART_E", ⟨0, none, none⟩, none,
          some [⟨131, [1, 5], [25]⟩], some "2023-01-01T00:00:00Z", none⟩
        false (fun _ => true)
      = Except.ok (true,
          [(Severity.info, LogMsg.requestIdMatch "rA"),
           (Severity.info, LogMsg.rulesetIdMatch "US_47_CFR_PART_15_SUBPART_E"),
           (Severity.warning, LogMsg.responseCodeUnexpected 0),
           (Severity.info, LogMsg.eirpInRange 131 1)])
    ∧ ((5 : ℚ) ∈ [(1 : ℚ), 5] ∧ (5 : ℚ) ∉ [(1 : ℚ)]) := by
  refine ⟨?_, ?_, by rfl, by decide⟩
  · intro goc m cfis extra eirps h
    rw [zip_of_append_left cfis extra eirps h]
  · intro goc m cfis extra eirps h
    rw [zip_of_append_right cfis eirps extra h]

theorem scanMask_covering_unique (curr : Int) (e : ExpectedAvailableFrequencyInfo)
    (hlow : e.frequencyRange.lowFrequency ≤ curr)
    (hhigh : curr < e.frequencyRange.highFrequency) :
    ∀ (entries : List ExpectedAvailableFrequencyInfo) (h0 : Int),
      (entries.Pairwise fun a b => a.frequencyRange.overlaps b.frequencyRange = false) →
      e ∈ entries → ∃ s, scanMask curr h0 entries = (some e, s) := by
  intro entries
  induction entries with
  | nil => intro h0 _ he; cases he
  | cons x rest ih =>
    intro h0 hpair he
    rcases List.mem_cons.mp he with heq | hmem
    · subst heq
      exact ⟨h0, by rw [scanMask, if_neg (not_le.mpr hhigh), if_neg (not_lt.mpr hlow)]⟩
    · have hx : x.frequencyRange.overlaps e.frequencyRange = false :=
        (List.pairwise_cons.mp hpair).1 e hmem
      have hnc : x.frequencyRange.highFrequency ≤ curr
          ∨ curr < x.frequencyRange.lowFrequency := by
        by_contra hcon
        push_neg at hcon
        have hov : x.frequencyRange.overlaps e.frequencyRange = true := by
          simp only [FrequencyRange.overlaps, Bool.and_eq_true, decide_eq_true_eq]
          exact ⟨lt_of_le_of_lt hcon.2 hhigh, lt_of_le_of_lt hlow hcon.1⟩
        rw [hov] at hx
        cases hx
      rw [scanMask]
      by_cases h1 : x.frequencyRange.highFrequency ≤ curr
      · rw [if_pos h1]
        exact ih h0 (List.pairwise_cons.mp hpair).2 hmem
      · rw [if_neg h1, if_pos (hnc.resolve_left h1)]
        exact ih _ (List.pairwise_cons.mp hpair).2 hmem

/-- C1: when the received frequency range is fully covered by one mask
entry e and the mask entries are pairwise non-overlapping (as a validated
mask requires), the sweep reduces to the single checked record for the
whole range, whose verdict is exactly the inclusive bound check
lowerBound <= maxPsd <= upperBound of e; a received maxPsd strictly above
upperBound makes run_test_response return false with a hard-failure error
entry for that sub-range. -/
theorem freq_check_single_cover (entries : List ExpectedAvailableFrequencyInfo)
    (e : ExpectedAvailableFrequencyInfo) (lo hi : Int) (psd : ℚ)
    (hlohi : lo < hi)
    (hpair : entries.Pairwise fun a b => a.frequencyRange.overlaps b.frequencyRange = false)
    (he : e ∈ entries)
    (hlow : e.frequencyRange.lowFrequency ≤ lo)
    (hhigh : hi ≤ e.frequencyRange.highFrequency) :
    sweep entries hi psd lo = [SweepRecord.checked lo hi (e.maxPsd.in_range psd)]
    ∧ (e.maxPsd.in_range psd = true ↔
        (∀ lb, e.maxPsd.lowerBound = some lb → lb ≤ psd) ∧ psd ≤ e.maxPsd.upperBound)
    ∧ (e.maxPsd.upperBound < psd →
        ∀ (exp : ExpectedSpectrumInquiryResponse) (recv : AvailableSpectrumInquiryResponse)
          (isoOk : String → Bool),
          exp.expectedFrequencyInfo = some entries →
          recv.availableFrequencyInfo = some [⟨⟨lo, hi⟩, psd⟩] →
          recv.availableChannelInfo = none →
          ∃ l, run_test_response exp recv false isoOk = Except.ok (false, l)
            ∧ (Severity.error, LogMsg.maskViolated lo hi) ∈ l) := by
  obtain ⟨s, hs⟩ := scanMask_covering_unique lo e hlow (lt_of_lt_of_le hlohi hhigh)
    entries hi hpair he
  have hsweep : sweep entries hi psd lo
      = [SweepRecord.checked lo hi (e.maxPsd.in_range psd)] := by
    rw [sweep_eq_some entries hi psd lo e s hlohi hs,
      sweep_of_not_lt entries hi psd _ (not_lt.mpr hhigh),
      min_eq_right hhigh]
  refine ⟨hsweep, ?_, ?_⟩
  · cases hlb : e.maxPsd.lowerBound with
    | none => simp [ExpectedPowerRange.in_range, hlb]
    | some lb => simp [ExpectedPowerRange.in_range, hlb]
  · intro hgt exp recv isoOk hef hrf hrc
    have hir : e.maxPsd.in_range psd = false := by
      simp [ExpectedPowerRange.in_range, not_le.mpr hgt]
    have hfc : frequencyCheck exp recv
        = (false, [(Severity.error, LogMsg.maskViolated lo hi)]) := by
      rw [frequencyCheck, hrf, hef]
      show checkFreqInfos entries [⟨⟨lo, hi⟩, psd⟩] = _
      rw [checkFreqInfos]
      simp only [checkFreqInfos, hsweep, hir]
      simp [SweepRecord.ok, recordToLog, hir]
    have hchan : channelCheck exp recv = Except.ok (true, []) := by
      rw [channelCheck, hrc]
    simp only [run_test_response, Bool.false_and, Bool.false_eq_true, if_false, hchan,
      Except.map, hfc, Bool.and_false, Bool.and_true]
    refine ⟨_, rfl, ?_⟩
    simp

/-- Witness for C1 at a concrete input: a single mask entry covering
[5925, 6425) with bounds 20 <= x <= 30, received range [6000, 6200) with
maxPsd 25. -/
theorem freq_check_single_cover_witness :
    sweep [⟨⟨5925, 6425⟩, ⟨30, none, some 20⟩⟩] 6200 25 6000
        = [SweepRecord.checked 6000 6200
            (ExpectedPowerRange.in_range ⟨30, none, some 20⟩ 25)]
    ∧ (ExpectedPowerRange.in_range ⟨30, none, some 20⟩ 25 = true ↔
        (∀ lb, (ExpectedPowerRange.mk 30 none (some 20)).lowerBound = some lb → lb ≤ 25)
          ∧ (25 : ℚ) ≤ (ExpectedPowerRange.mk 30 none (some 20)).upperBound)
    ∧ ((ExpectedPowerRange.mk 30 none (some 20)).upperBound < 25 →
        ∀ (exp : ExpectedSpectrumInquiryResponse) (recv : AvailableSpectrumInquiryResponse)
          (isoOk : String → Bool),
          exp.expectedFrequencyInfo = some [⟨⟨5925, 6425⟩, ⟨30, none, some 20⟩⟩] →
          recv.availableFrequencyInfo = some [⟨⟨6000, 6200⟩, 25⟩] →
          recv.availableChannelInfo = none →
          ∃ l, run_test_response exp recv false isoOk = Except.ok (false, l)
            ∧ (Severity.error, LogMsg.maskViolated 6000 6200) ∈ l) :=
  freq_check_single_cover [⟨⟨5925, 6425⟩, ⟨30, none, some 20⟩⟩]
    ⟨⟨5925, 6425⟩, ⟨30, none, some 20⟩⟩ 6000 6200 25
    (by decide) (by decide) (by decide) (by decide) (by decide)

/-- Error condition of the per-pair channel checks: some received
(cfi, eirp) pair is matched by two or more mask pairs. -/
def pairsMultiMatch (m : ExpectedAvailableChannelInfo) (pairs : List (ℚ × ℚ)) : Prop :=
  ∃ cfi eirp, (cfi, eirp) ∈ pairs
    ∧ 2 ≤ ((m.channelCfi.zip m.maxEirp).filter fun q => decide (q.1 = cfi)).length

theorem checkChannelPairs_error_iff (goc : ℚ) (m : ExpectedAvailableChannelInfo)
    (pairs : List (ℚ × ℚ)) :
    isErr (checkChannelPairs goc m pairs) = true ↔ pairsMultiMatch m pairs := by
  induction pairs with
  | nil => simp [checkChannelPairs, isErr, pairsMultiMatch]
  | cons p rest ih =>
    obtain ⟨cfi, eirp⟩ := p
    rw [checkChannelPairs]
    cases hf : (m.channelCfi.zip m.maxEirp).filter fun q => decide (q.1 = cfi) with
    | nil =>
      simp only [hf, isErr_map, ih, pairsMultiMatch]
      constructor
      · rintro ⟨c, e, hm, hl⟩
        exact ⟨c, e, List.mem_cons_of_mem _ hm, hl⟩
      · rintro ⟨c, e, hm, hl⟩
        rcases List.mem_cons.mp hm with heq | hm2
        · injection heq with h1 h2
          subst h1
          rw [hf] at hl
          simp at hl
        · exact ⟨c, e, hm2, hl⟩
    | cons a tail =>
      cases tail with
      | nil =>
        obtain ⟨a1, a2⟩ := a
        simp only [hf, isErr_map, ih, pairsMultiMatch]
        constructor
        · rintro ⟨c, e, hm, hl⟩
          exact ⟨c, e, List.mem_cons_of_mem _ hm, hl⟩
        · rintro ⟨c, e, hm, hl⟩
          rcases List.mem_cons.mp hm with heq | hm2
          · injection heq with h1 h2
            subst h1
            rw [hf] at hl
            simp at hl
          · exact ⟨c, e, hm2, hl⟩
      | cons b t2 =>
        simp only [hf, isErr]
        constructor
        · intro _
          refine ⟨cfi, eirp, List.mem_cons_self _ _, ?_⟩
          rw [hf]
          simp only [List.length_cons]
          omega
        · intro _
          trivial

/-- Error condition of the channel reconciliation for one received class:
it matches several non-placeholder mask classes, or exactly one whose
pairs multi-match. -/
def classMultiMatch (expChan : List ExpectedAvailableChannelInfo)
    (rc : AvailableChannelInfo) : Prop :=
  2 ≤ (matchingExpectedClass expChan rc).length
    ∨ ∃ m, matchingExpectedClass expChan rc = [m]
        ∧ pairsMultiMatch m (rc.channelCfi.zip rc.maxEirp)

theorem checkChannelClasses_error_iff (expChan : List ExpectedAvailableChannelInfo)
    (classes : List AvailableChannelInfo) :
    isErr (checkChannelClasses expChan classes) = true ↔
      ∃ rc ∈ classes, classMultiMatch expChan rc := by
  induction classes with
  | nil => simp [checkChannelClasses, isErr]
  | cons rc rest ih =>
    rw [checkChannelClasses]
    cases hm : matchingExpectedClass expChan rc with
    | nil =>
      simp only [hm, isErr_map, ih]
      constructor
      · rintro ⟨c, hmem, hc⟩
        exact ⟨c, List.mem_cons_of_mem _ hmem, hc⟩
      · rintro ⟨c, hmem, hc⟩
        rcases List.mem_cons.mp hmem with heq | hm2
        · subst heq
          rcases hc with h2 | ⟨m, hme, -⟩
          · rw [hm] at h2
            simp at h2
          · rw [hm] at hme
            cases hme
        · exact ⟨c, hm2, hc⟩
    | cons m tail =>
      cases tail with
      | nil =>
        simp only [hm]
        cases hp : checkChannelPairs rc.globalOperatingClass m
            (rc.channelCfi.zip rc.maxEirp) with
        | error msg =>
          simp only [Except.bind, isErr]
          constructor
          · intro _
            refine ⟨rc, List.mem_cons_self _ _, Or.inr ⟨m, hm, ?_⟩⟩
            rw [← checkChannelPairs_error_iff rc.globalOperatingClass, hp]
            rfl
          · intro _
            trivial
        | ok r1 =>
          simp only [Except.bind, isErr_map, ih]
          constructor
          · rintro ⟨c, hmem, hc⟩
            exact ⟨c, List.mem_cons_of_mem _ hmem, hc⟩
          · rintro ⟨c, hmem, hc⟩
            rcases List.mem_cons.mp hmem with heq | hm2
            · subst heq
              rcases hc with h2 | ⟨m2, hme, hpm⟩
              · rw [hm] at h2
                simp at h2
              · rw [hm] at hme
                injection hme with h1 h2
                subst h1
                have := (checkChannelPairs_error_iff c.globalOperatingClass m
                  (c.channelCfi.zip c.maxEirp)).mpr hpm
                rw [hp] at this
                cases this
            · exact ⟨c, hm2, hc⟩
      | cons m2 t2 =>
        simp only [isErr]
        constructor
        · intro _
          refine ⟨rc, List.mem_cons_self _ _, Or.inl ?_⟩
          rw [hm]
          simp only [List.length_cons]
          omega
        · intro _
          trivial

/-- C4 evaluation: the claim that run_test_response raises exactly when
the mask is bad is false of the program. Without re-validation, a raise
(ValueError) does occur exactly on the channel multi-match conditions and
never on account of the received response (first conjunct, an iff over
all inputs with validate_objects off). But with validate_objects set, the
mask re-validation call itself raises AttributeError for every mask with
a nonempty expectedResponseCodes list — including the concrete
intent-valid mask below, which the same runner happily compares when
re-validation is off (last conjunct). -/
theorem revalidation_raises_on_valid_mask :
    (∀ (exp : ExpectedSpectrumInquiryResponse) (recv : AvailableSpectrumInquiryResponse)
        (isoOk : String → Bool),
      isErr (run_test_response exp recv false isoOk) = true ↔
        ∃ classes expChan, recv.availableChannelInfo = some classes
          ∧ exp.expectedChannelInfo = some expChan
          ∧ ∃ rc ∈ classes, classMultiMatch expChan rc)
    ∧ isErr (run_test_response
        ⟨"rA", "US_47_CFR_PART_15_SUBPART_E", [0], none,
          some [⟨131, [1], [⟨30, none, some 20⟩]⟩], none,
          [-1, 100, 101, 102, 103, 106, 300, 301]⟩
        ⟨"rA", "US_47_CFR_PART_15_SUBPART_E", ⟨0, none, none⟩, none,
          some [⟨131, [1], [25]⟩], some "2023-01-01T00:00:00Z", none⟩
        true (fun _ => true)) = true
    ∧ isErr (validate_expected_spectrum_inquiry_response
        ⟨"rA", "US_47_CFR_PART_15_SUBPART_E", [0], none,
          some [⟨131, [1], [⟨30, none, some 20⟩]⟩], none,
          [-1, 100, 101, 102, 103, 106, 300, 301]⟩) = true
    ∧ run_test_response
        ⟨"rA", "US_47_CFR_PART_15_SUBPART_E", [0], none,
          some [⟨131, [1], [⟨30, none, some 20⟩]⟩], none,
          [-1, 100, 101, 102, 103, 106, 300, 301]⟩
        ⟨"rA", "US_47_CFR_PART_15_SUBPART_E", ⟨0, none, none⟩, none,
          some [⟨131, [1], [25]⟩], some "2023-01-01T00:00:00Z", none⟩
        false (fun _ => true)
      = Except.ok (true,
          [(Severity.info, LogMsg.requestIdMatch "rA"),
           (Severity.info, LogMsg.rulesetIdMatch "US_47_CFR_PART_15_SUBPART_E"),
           (Severity.warning, LogMsg.responseCodeUnexpected 0),
           (Severity.info, LogMsg.eirpInRange 131 1)]) := by
  refine ⟨?_, by decide, by decide, by rfl⟩
  intro exp recv isoOk
  rw [run_test_response]
  simp only [Bool.false_eq_true, if_false, Except.bind, isErr_map]
  rw [channelCheck]
  cases hri : recv.availableChannelInfo with
  | none =>
    simp only [isErr]
    constructor
    · intro h
      cases h
    · rintro ⟨classes, expChan, hcl, -⟩
      cases hcl
  | some classes =>
    cases hre : exp.expectedChannelInfo with
    | none =>
      simp only [isErr]
      constructor
      · intro h
        cases h
      · rintro ⟨classes2, expChan, -, hex, -⟩
        cases hex
    | some expChan =>
      rw [checkChannelClasses_error_iff]
      constructor
      · intro h
        exact ⟨classes, expChan, rfl, rfl, h⟩
      · rintro ⟨classes2, expChan2, hcl, hex, hc⟩
        injection hcl with hcl
        injection hex with hex
        subst hcl
        subst hex
        exact hc

theorem expectedIdChecks_false (resps : List AvailableSpectrumInquiryResponse)
    (isoOk : String → Bool) :
    ∀ (el : List ExpectedSpectrumInquiryResponse) (b : Bool) (l : List LogEntry),
      expectedIdChecks resps isoOk el = Except.ok (b, l) →
      (∃ e ∈ el, countMatchingIds e.requestId resps ≠ 1) → b = false := by
  intro el
  induction el with
  | nil =>
    rintro b l h ⟨e, he, -⟩
    cases he
  | cons sub rest ih =>
    intro b l h hex
    rw [expectedIdChecks] at h
    by_cases hn : countMatchingIds sub.requestId resps ≠ 1
    · rw [if_pos hn] at h
      cases hrest : expectedIdChecks resps isoOk rest with
      | error msg =>
        rw [hrest] at h
        simp only [Except.map] at h
        cases h
      | ok r =>
        rw [hrest] at h
        simp only [Except.map] at h
        injection h with h2
        have hfst := congrArg Prod.fst h2
        simp only [Bool.false_and] at hfst
        exact hfst.symm
    · rw [if_neg hn] at h
      rcases hex with ⟨e, he, hne⟩
      rcases List.mem_cons.mp he with heq | hm
      · subst heq
        exact absurd hne hn
      · cases hrun : runSubResponses sub isoOk resps with
        | error msg =>
          rw [hrun] at h
          simp only [Except.bind] at h
          cases h
        | ok r1 =>
          rw [hrun] at h
          simp only [Except.bind] at h
          cases hrest : expectedIdChecks resps isoOk rest with
          | error msg =>
            rw [hrest] at h
            simp only [Except.map] at h
            cases h
          | ok r2 =>
            rw [hrest] at h
            simp only [Except.map] at h
            injection h with h2
            have hb2 : r2.1 = false := ih r2.1 r2.2 (by rw [hrest]) ⟨e, hm, hne⟩
            have hfst := congrArg Prod.fst h2
            simp only at hfst
            rw [← hfst, hb2, Bool.and_false]

theorem unexpectedIdChecks_false (exps : List ExpectedSpectrumInquiryResponse) :
    ∀ (resps : List AvailableSpectrumInquiryResponse),
      (∃ r ∈ resps, countExpectedIds r.requestId exps = 0) →
      (unexpectedIdChecks exps resps).1 = false := by
  intro resps
  induction resps with
  | nil =>
    rintro ⟨r, hr, -⟩
    cases hr
  | cons r rest ih =>
    rintro ⟨r2, hr2, hcount⟩
    rw [unexpectedIdChecks]
    rcases List.mem_cons.mp hr2 with heq | hm
    · subst heq
      simp [hcount]
    · by_cases hc : countExpectedIds r.requestId exps = 0
      · simp [hc]
      · simp only [if_neg hc]
        exact ih ⟨r2, hm, hcount⟩

/-- C6: run_test_response_message returns false (when it returns at all)
whenever the response counts differ, some expected requestId is matched by
a number of received responses other than one, or some received response
carries a requestId absent from every expected sub-mask; in particular a
mask expecting requestIds A and B reconciled against two received
responses both carrying A returns false. -/
theorem message_reconciliation_hard_failures
    (expected : ExpectedSpectrumInquiryResponseMessage)
    (received : AvailableSpectrumInquiryResponseMessage) (vo : Bool)
    (isoOk : String → Bool) (b : Bool) (l : List LogEntry)
    (hok : run_test_response_message expected received vo isoOk = Except.ok (b, l))
    (hcond : received.availableSpectrumInquiryResponses.length
        ≠ expected.expectedSpectrumInquiryResponses.length
      ∨ (∃ e ∈ expected.expectedSpectrumInquiryResponses,
          countMatchingIds e.requestId received.availableSpectrumInquiryResponses ≠ 1)
      ∨ (∃ r ∈ received.availableSpectrumInquiryResponses,
          countExpectedIds r.requestId expected.expectedSpectrumInquiryResponses = 0)) :
    b = false := by
  rw [run_test_response_message] at hok
  by_cases hv : (vo
      && !(validate_expected_spectrum_inquiry_response_message expected)) = true
  · rw [if_pos hv] at hok
    cases hok
  · rw [if_neg hv] at hok
    cases hexp : expectedIdChecks received.availableSpectrumInquiryResponses isoOk
        expected.expectedSpectrumInquiryResponses with
    | error msg =>
      rw [hexp] at hok
      simp only [Except.map] at hok
      cases hok
    | ok r3 =>
      rw [hexp] at hok
      simp only [Except.map] at hok
      injection hok with hok
      have hfst := congrArg Prod.fst hok
      simp only at hfst
      rcases hcond with hc | hc | hc
      · rw [← hfst, if_pos hc]
        simp
      · have h3 : r3.1 = false :=
          expectedIdChecks_false _ _ _ r3.1 r3.2 (by rw [hexp]) hc
        rw [← hfst, h3]
        simp
      · have h4 := unexpectedIdChecks_false
          expected.expectedSpectrumInquiryResponses
          received.availableSpectrumInquiryResponses hc
        rw [← hfst, h4]
        simp

/-- Witness for C6 at the concrete scenario of the spec: mask expecting
requestIds A and B, received message with two responses both carrying A. -/
theorem message_reconciliation_hard_failures_witness :
    ∃ l, run_test_response_message
        ⟨"1.3",
          [⟨"A", "US_47_CFR_PART_15_SUBPART_E", [-1], none, none, none, [0]⟩,
           ⟨"B", "US_47_CFR_PART_15_SUBPART_E", [-1], none, none, none, [0]⟩], none⟩
        ⟨"1.3",
          [⟨"A", "US_47_CFR_PART_15_SUBPART_E", ⟨-1, none, none⟩, none, none, none, none⟩,
           ⟨"A", "US_47_CFR_PART_15_SUBPART_E", ⟨-1, none, none⟩, none, none, none, none⟩],
          none⟩
        false (fun _ => true) = Except.ok (false, l) := by
  obtain ⟨b, l, hbl⟩ :
      ∃ b l, run_test_response_message
        ⟨"1.3",
          [⟨"A", "US_47_CFR_PART_15_SUBPART_E", [-1], none, none, none, [0]⟩,
           ⟨"B", "US_47_CFR_PART_15_SUBPART_E", [-1], none, none, none, [0]⟩], none⟩
        ⟨"1.3",
          [⟨"A", "US_47_CFR_PART_15_SUBPART_E", ⟨-1, none, none⟩, none, none, none, none⟩,
           ⟨"A", "US_47_CFR_PART_15_SUBPART_E", ⟨-1, none, none⟩, none, none, none, none⟩],
          none⟩
        false (fun _ => true) = Except.ok (b, l) := ⟨_, _, rfl⟩
  have hb := message_reconciliation_hard_failures _ _ false (fun _ => true) b l hbl
    (Or.inr (Or.inl
      ⟨⟨"A", "US_47_CFR_PART_15_SUBPART_E", [-1], none, none, none, [0]⟩,
        by decide, by decide⟩))
  exact ⟨l, hb ▸ hbl⟩

/-- C9: for a four-vertex linear polygon whose edges 1-2 and 3-4 cross (as
reported by the edge-intersection primitive), validate_linear_polygon logs
an edge-intersection warning yet still returns true when the strict flag
(_enforce_strict_polygon, default False) is off; with the flag on, the
same input makes the validator return false. -/
theorem strict_flag_gates_polygon_result (dist : Point → Point → ℚ)
    (intersects : Edge → Edge → Bool) (v1 v2 v3 v4 : Point)
    (hp1 : validate_point v1 = true) (hp2 : validate_point v2 = true)
    (hp3 : validate_point v3 = true) (hp4 : validate_point v4 = true)
    (h13 : v1 ≠ v3) (h14 : v1 ≠ v4) (h23 : v2 ≠ v3) (h24 : v2 ≠ v4)
    (hcross : intersects ⟨v1, v2⟩ ⟨v3, v4⟩ = true) :
    (validate_linear_polygon false dist intersects [v1, v2, v3, v4]).1 = true
    ∧ (Severity.warning, PolyLog.edgeIntersection ⟨v1, v2⟩ ⟨v3, v4⟩)
        ∈ (validate_linear_polygon false dist intersects [v1, v2, v3, v4]).2
    ∧ (validate_linear_polygon true dist intersects [v1, v2, v3, v4]).1 = false := by
  have hmemPairs : ((⟨⟨v1, v2⟩, ⟨v3, v4⟩⟩ : Edge × Edge))
      ∈ orderedCombos ((cyclePairs [v1, v2, v3, v4]).map fun p => Edge.mk p.1 p.2) := by
    show _ ∈ orderedCombos [Edge.mk v4 v1, Edge.mk v1 v2, Edge.mk v2 v3, Edge.mk v3 v4]
    refine List.mem_map.mpr ⟨(⟨v1, v2⟩, ⟨v3, v4⟩), ?_, ?_⟩
    · simp [pairCombos]
    · rw [if_neg]
      rintro ⟨hc1, -⟩
      simp only [List.head?_cons, Option.some.injEq] at hc1
      injection hc1 with ha hb
      exact h14 ha.symm
  have hallfalse :
      ((orderedCombos ((cyclePairs [v1, v2, v3, v4]).map fun p => Edge.mk p.1 p.2)).all
        fun p => !(intersects p.1 p.2)) = false := by
    refine List.all_eq_false.mpr ⟨_, hmemPairs, ?_⟩
    simp [hcross]
  refine ⟨?_, ?_, ?_⟩
  · simp only [validate_linear_polygon, Bool.not_false, Bool.or_true, Bool.and_true]
    simp [hp1, hp2, hp3, hp4]
  · have hmemf : (Severity.warning, PolyLog.edgeIntersection ⟨v1, v2⟩ ⟨v3, v4⟩)
        ∈ (orderedCombos ((cyclePairs [v1, v2, v3, v4]).map
            fun p => Edge.mk p.1 p.2)).filterMap fun p =>
          if intersects p.1 p.2 = true then
            some (Severity.warning, PolyLog.edgeIntersection p.1 p.2)
          else none :=
      List.mem_filterMap.mpr ⟨_, hmemPairs, by simp [hcross]⟩
    simp only [validate_linear_polygon, validatePolygonEdgeIntersection, List.mem_append]
    tauto
  · simp only [validate_linear_polygon, validatePolygonEdgeIntersection, Bool.not_true,
      Bool.or_false]
    rw [hallfalse]
    simp

/-- Witness for C9 at a concrete input: a square-ish four-point boundary
with an oracle that reports every edge pair as crossing. -/
theorem strict_flag_gates_polygon_result_witness :
    (validate_linear_polygon false (fun _ _ => 0) (fun _ _ => true)
        [⟨0, 0⟩, ⟨1, 0⟩, ⟨1, 1⟩, ⟨0, 1⟩]).1 = true
    ∧ (Severity.warning,
        PolyLog.edgeIntersection ⟨⟨0, 0⟩, ⟨1, 0⟩⟩ ⟨⟨1, 1⟩, ⟨0, 1⟩⟩)
        ∈ (validate_linear_polygon false (fun _ _ => 0) (fun _ _ => true)
            [⟨0, 0⟩, ⟨1, 0⟩, ⟨1, 1⟩, ⟨0, 1⟩]).2
    ∧ (validate_linear_polygon true (fun _ _ => 0) (fun _ _ => true)
        [⟨0, 0⟩, ⟨1, 0⟩, ⟨1, 1⟩, ⟨0, 1⟩]).1 = false :=
  strict_flag_gates_polygon_result (fun _ _ => 0) (fun _ _ => true)
    ⟨0, 0⟩ ⟨1, 0⟩ ⟨1, 1⟩ ⟨0, 1⟩
    (by decide) (by decide) (by decide) (by decide)
    (by decide) (by decide) (by decide) (by decide) (by decide)

end AFC
